import Mathlib

/-!
Shallow embedding of the dectyl host/worker request-response protocol.

The definitions below are translated from the repository sources:
  - src/lib/util.ts            (Deferred)
  - src/lib/deploy_worker.ts   (DeployWorker: fetch, close, stop, info,
                                parseHeaders, #streamBody, #watchSignal,
                                body-message handling)
  - src/unnamed/part_006       (later revision of DeployWorker, adding the
                                respond/respondError handler cases)
  - src/runtime/main.ts and src/unnamed/part_012
                               (DeployWorkerHost: #postResponse, #streamBody,
                                #parseInit signal registration, abort handling)

JavaScript byte arrays (Uint8Array) are modelled as lists of naturals,
asynchronous message posting as pure lists of emitted messages, and the
single-threaded mutable state of each side as explicit state passing.
-/

/-- Direction tag on body messages: `subType` of `bodyChunk`, `bodyClose` and
`bodyError`, distinguishing a request-body stream from a response-body stream
for the same request id (src/types.d.ts and message literals in the source). -/
inductive SubType
  | request
  | response
deriving DecidableEq

/-- Identity of a JavaScript `Error` value as it crosses the message boundary:
name, message and stack (the fields serialized by `respondError`). -/
structure JsError where
  name : String
  message : String
  stack : String
deriving DecidableEq

/-- A body chunk (Uint8Array) as a list of byte values. -/
abbrev Chunk := List Nat

/-- Wire messages of the dectyl protocol used by the claims: the body-stream
messages, `respond`, `respondError`, `abort` and `fetch`.  Field layout follows
src/types.d.ts.  The `fetch` message carries the serialized request descriptor:
url, header list, optional signal id, and whether the body is a live stream. -/
inductive Msg
  | bodyChunk (id : Nat) (chunk : Chunk) (subType : SubType)
  | bodyClose (id : Nat) (subType : SubType)
  | bodyError (id : Nat) (error : JsError) (subType : SubType)
  | respond (id : Nat) (hasBody : Bool) (headers : List (String × String))
      (status : Nat) (statusText : String)
  | respondError (id : Nat) (message : String) (name : String) (stack : String)
  | abort (id : Nat)
  | fetch (id : Nat) (url : String) (headers : List (String × String))
      (signal : Option Nat) (bodyIsStream : Bool)
deriving DecidableEq

/-- Outcome of iterating a source byte stream (`for await (const chunk of body)`):
either it yields some chunks and ends normally, or it yields some chunks and
then iteration throws an error. -/
inductive BodySource
  | ok (chunks : List Chunk)
  | err (chunks : List Chunk) (e : JsError)
deriving DecidableEq

/-- Worker lifecycle states, from `DeployWorkerState` in
src/lib/deploy_worker.ts. -/
inductive DeployWorkerState
  | loading
  | stopped
  | running
  | errored
  | closing
  | closed
deriving DecidableEq

/-- The guard `this.#state === "running" || this.#state === "stopped"` used
throughout DeployWorker. -/
def runningOrStopped : DeployWorkerState → Bool
  | .running => true
  | .stopped => true
  | _ => false

/-- Settlement state of a `Deferred`, from `DeferredState` in src/lib/util.ts. -/
inductive DeferredState
  | pending
  | rejected
  | resolved
deriving DecidableEq

/-- Thrown `TypeError` value (message only). -/
structure TypeErrorEx where
  message : String
deriving DecidableEq

/-- The `Deferred` single-assignment future of src/lib/util.ts.  `settled` and
`state` mirror the private fields; `promiseValue` models the settlement of the
underlying promise (`Sum.inl` a resolution value, `Sum.inr` a rejection
reason), which in JavaScript is fixed by whichever of the executor callbacks
runs first, later calls being no-ops at the promise level. -/
structure Deferred (α : Type) where
  settled : Bool
  state : DeferredState
  promiseValue : Option (α ⊕ JsError)
  strict : Bool
deriving DecidableEq

/-- Construction `new Deferred(strict)` (promise pending, not settled). -/
def Deferred.new (α : Type) (strict : Bool) : Deferred α :=
  ⟨false, .pending, none, strict⟩

/-- Method `Deferred.resolve` from src/lib/util.ts: throws `TypeError` when
already settled in strict mode; otherwise calls the underlying promise resolver
(a no-op if the promise already settled) and records settlement on first use. -/
def Deferred.resolve {α : Type} (d : Deferred α) (v : α) :
    Except TypeErrorEx (Deferred α) :=
  if d.settled && d.strict then
    .error ⟨"Already settled."⟩
  else
    .ok ⟨true,
      (if d.settled then d.state else .resolved),
      (match d.promiseValue with
       | none => some (Sum.inl v)
       | some x => some x),
      d.strict⟩

/-- Method `Deferred.reject` from src/lib/util.ts, symmetric to `resolve`. -/
def Deferred.reject {α : Type} (d : Deferred α) (e : JsError) :
    Except TypeErrorEx (Deferred α) :=
  if d.settled && d.strict then
    .error ⟨"Already settled."⟩
  else
    .ok ⟨true,
      (if d.settled then d.state else .rejected),
      (match d.promiseValue with
       | none => some (Sum.inr e)
       | some x => some x),
      d.strict⟩

/-- Association-list lookup modelling JavaScript `Map.prototype.get` (keys are
unique by construction of the code: `set` overwrites). -/
def mapGet {α : Type} (m : List (Nat × α)) (k : Nat) : Option α :=
  match m with
  | [] => none
  | p :: rest => if p.1 = k then some p.2 else mapGet rest k

/-- JavaScript `Map.prototype.set`: updates the value in place when the key is
present, otherwise appends a new entry. -/
def mapSet {α : Type} (m : List (Nat × α)) (k : Nat) (v : α) : List (Nat × α) :=
  if k ∈ m.map Prod.fst then
    m.map (fun p => if p.1 = k then (k, v) else p)
  else
    m ++ [(k, v)]

/-- JavaScript `Map.prototype.delete`: removes the entry for the key. -/
def mapDelete {α : Type} (m : List (Nat × α)) (k : Nat) : List (Nat × α) :=
  m.filter (fun p => p.1 ≠ k)

/-- The shim-side request-body streamer `DeployWorkerHost.#streamBody`
(src/runtime/main.ts lines 353-377, identical in src/unnamed/part_012 lines
567-591): posts a `bodyChunk` per iterated chunk with `subType = "request"`;
when iteration throws it posts `bodyError`; in every case it then posts
`bodyClose`. -/
def DeployWorkerHost.streamBody (id : Nat) (body : BodySource) : List Msg :=
  match body with
  | .ok chunks =>
      chunks.map (fun c => Msg.bodyChunk id c .request) ++ [Msg.bodyClose id .request]
  | .err chunks e =>
      chunks.map (fun c => Msg.bodyChunk id c .request) ++
        [Msg.bodyError id e .request, Msg.bodyClose id .request]

/-- Response data destructured by `DeployWorkerHost.#postResponse`: body (a
stream, or null), header entries, status and statusText. -/
structure ResponseData where
  body : Option BodySource
  headers : List (String × String)
  status : Nat
  statusText : String
deriving DecidableEq

/-- The shim-side response path `DeployWorkerHost.#postResponse`
(src/runtime/main.ts lines 294-343, identical in src/unnamed/part_012 lines
508-557).  Awaiting the response promise either fails — posting a single
`respondError` with the error identity — or yields a response, in which case a
`respond` message is posted (with `hasBody` reflecting body presence) followed,
when a body is present, by its chunks with `subType = "response"`, a
`bodyError` if iteration throws, and then in either case a `bodyClose`. -/
def DeployWorkerHost.postResponse (id : Nat) (res : Except JsError ResponseData) :
    List Msg :=
  match res with
  | .error err => [Msg.respondError id err.message err.name err.stack]
  | .ok r =>
      Msg.respond id r.body.isSome r.headers r.status r.statusText ::
        (match r.body with
         | none => []
         | some (.ok chunks) =>
             chunks.map (fun c => Msg.bodyChunk id c .response) ++
               [Msg.bodyClose id .response]
         | some (.err chunks e) =>
             chunks.map (fun c => Msg.bodyChunk id c .response) ++
               [Msg.bodyError id e .response, Msg.bodyClose id .response])

/-- Loop body of the host-side `DeployWorker.#streamBody`
(src/unnamed/part_006 lines 370-389; src/lib/deploy_worker.ts lines 177-209 is
the same without the `subType` field).  `stateAt i` is the worker state the
single-threaded host observes at the i-th iteration check: when the state has
left running/stopped, only a `bodyClose` is posted and the loop returns early
(second component `true`); otherwise the chunk is posted. -/
def DeployWorker.streamBodyLoop (id : Nat) (stateAt : Nat → DeployWorkerState) :
    Nat → List Chunk → List Msg × Bool
  | _, [] => ([], false)
  | i, c :: cs =>
      if runningOrStopped (stateAt i) then
        let r := DeployWorker.streamBodyLoop id stateAt (i + 1) cs
        (Msg.bodyChunk id c .request :: r.1, r.2)
      else
        ([Msg.bodyClose id .request], true)

/-- The host-side request-body streamer `DeployWorker.#streamBody`
(src/unnamed/part_006 lines 370-389).  After the loop (unless it returned
early): when iteration threw, a `bodyError` is posted if the worker is still
running/stopped; then a `bodyClose` is posted if the worker is still
running/stopped.  Post-loop state reads are modelled at indices
`chunks.length` and `chunks.length + 1`. -/
def DeployWorker.streamBody (id : Nat) (stateAt : Nat → DeployWorkerState)
    (body : BodySource) : List Msg :=
  match body with
  | .ok chunks =>
      let r := DeployWorker.streamBodyLoop id stateAt 0 chunks
      if r.2 then r.1
      else
        r.1 ++
          (if runningOrStopped (stateAt chunks.length) then
             [Msg.bodyClose id .request]
           else [])
  | .err chunks e =>
      let r := DeployWorker.streamBodyLoop id stateAt 0 chunks
      if r.2 then r.1
      else
        r.1 ++
          (if runningOrStopped (stateAt chunks.length) then
             [Msg.bodyError id e .request]
           else []) ++
          (if runningOrStopped (stateAt (chunks.length + 1)) then
             [Msg.bodyClose id .request]
           else [])

/-- The body-stream cases of the host `DeployWorker.#handleMessage`
(src/lib/deploy_worker.ts lines 91-113): the controller table is modelled by
the list of request ids holding a live stream controller.  `bodyChunk` asserts
a controller and enqueues; `bodyClose` and `bodyError` assert a controller,
close/error it and delete the entry.  `none` models an assertion failure
(`assert(bodyController)`); message types not shown here are handled by other
cases and leave the controller table unchanged. -/
def DeployWorker.handleBodyMessage (controllers : List Nat) :
    Msg → Option (List Nat)
  | .bodyChunk id _ _ => if id ∈ controllers then some controllers else none
  | .bodyClose id _ => if id ∈ controllers then some (controllers.erase id) else none
  | .bodyError id _ _ => if id ∈ controllers then some (controllers.erase id) else none
  | _ => some controllers

/-- Processes a sequence of inbound messages through
`DeployWorker.handleBodyMessage`; `none` as soon as an assertion fails. -/
def DeployWorker.processBodyMessages (controllers : List Nat) :
    List Msg → Option (List Nat)
  | [] => some controllers
  | m :: ms =>
      match DeployWorker.handleBodyMessage controllers m with
      | none => none
      | some cs => DeployWorker.processBodyMessages cs ms

/-- A `Response` as reconstructed by the host from a `respond` message:
`hasBody` records whether a lazily-filled body stream was created. -/
structure ResponseV where
  hasBody : Bool
  headers : List (String × String)
  status : Nat
  statusText : String
deriving DecidableEq

/-- Value a pending fetch resolves with: `[Response, { duration: 0 }]`. -/
abbrev RespValue := ResponseV × Nat

/-- Outcome of one message-handler case: an assertion failure
(`assert(...)` from deps), a thrown exception, or a normal result. -/
inductive HandlerOutcome (α : Type)
  | assertionFailure
  | threw (e : TypeErrorEx)
  | ok (v : α)
deriving DecidableEq

/-- The `respond` case of the host `DeployWorker.#handleMessage`
(src/unnamed/part_006 lines 315-331; identical in src/lib/deploy_worker.ts
lines 133-148).  When `hasBody` a stream controller is registered for the id
before the table lookup; then the pending-fetch deferred is asserted, the id
deleted from the table, and the deferred resolved with the reconstructed
response and `{ duration: 0 }`.  Returns the handler outcome (the settled
deferred on success), the new pending table, and the new controller-id list. -/
def DeployWorker.handleRespond (pending : List (Nat × Deferred RespValue))
    (controllers : List Nat) (id : Nat) (r : ResponseV) :
    HandlerOutcome (Deferred RespValue) × List (Nat × Deferred RespValue) × List Nat :=
  let controllers2 := if r.hasBody then controllers ++ [id] else controllers
  match mapGet pending id with
  | none => (.assertionFailure, pending, controllers2)
  | some d =>
      match d.resolve (r, 0) with
      | .error e => (.threw e, mapDelete pending id, controllers2)
      | .ok d2 => (.ok d2, mapDelete pending id, controllers2)

/-- The `respondError` case of the host `DeployWorker.#handleMessage`
(src/unnamed/part_006 lines 332-342): reconstructs `new Error(message)` with
`name` and `stack` copied across, asserts the pending-fetch deferred, deletes
the id from the table and rejects the deferred with the reconstructed error. -/
def DeployWorker.handleRespondError (pending : List (Nat × Deferred RespValue))
    (id : Nat) (message : String) (name : String) (stack : String) :
    HandlerOutcome (Deferred RespValue) × List (Nat × Deferred RespValue) :=
  match mapGet pending id with
  | none => (.assertionFailure, pending)
  | some d =>
      match d.reject ⟨name, message, stack⟩ with
      | .error e => (.threw e, mapDelete pending id)
      | .ok d2 => (.ok d2, mapDelete pending id)

/-- Header-name normalization performed by the `Headers` constructor and
methods (names are matched and stored case-insensitively, lowercased):
every character mapped to lower case. -/
def headerName (name : String) : String := ⟨name.data.map Char.toLower⟩

/-- The entry list of `new Headers(init)`: names normalized, entries in order.
Combining of duplicate names into a single comma-joined entry and the sorted
iteration order of the platform `Headers` are not modelled; values pass
through verbatim. -/
def headersOfInit : Option (List (String × String)) → List (String × String)
  | none => []
  | some l => l.map fun p => (headerName p.1, p.2)

/-- `Headers.prototype.has`: case-insensitive presence of a header name. -/
def headersHas (h : List (String × String)) (name : String) : Bool :=
  h.any fun p => p.1 == headerName name

/-- Helper for `Headers.prototype.set`: replaces the first entry with the given
(normalized) name and removes any later duplicates. -/
def headersSetFirst (n v : String) : List (String × String) → List (String × String)
  | [] => []
  | p :: rest =>
      if p.1 == n then (n, v) :: rest.filter (fun q => !(q.1 == n))
      else p :: headersSetFirst n v rest

/-- `Headers.prototype.set`: overwrite when the name is present, else append. -/
def headersSet (h : List (String × String)) (name v : String) :
    List (String × String) :=
  if headersHas h name then headersSetFirst (headerName name) v h
  else h ++ [(headerName name, v)]

/-- The `parseHeaders` helper of src/lib/deploy_worker.ts lines 603-614 (also
exported from util in the later revision): builds `new Headers(headers)` and
then, for each default header in order, sets it only when not already
present; returns the serialized entry list. -/
def parseHeaders (defaults : List (String × String))
    (headers : Option (List (String × String))) : List (String × String) :=
  defaults.foldl
    (fun h kv => if headersHas h kv.1 then h else headersSet h kv.1 kv.2)
    (headersOfInit headers)

/-- The `defaultHeaders` record built inside `DeployWorker.fetch`
(src/lib/deploy_worker.ts lines 361-364): `host` is the host of the resolved
request URL, `x-forwarded-for` is `127.0.0.1`. -/
def defaultHeaders (host : String) : List (String × String) :=
  [("host", host), ("x-forwarded-for", "127.0.0.1")]

/-- The host-side `DeployWorker.#watchSignal` (src/lib/deploy_worker.ts lines
211-226): given the current signal-id counter and whether a signal was
supplied, returns the allocated signal id (`none` when no signal) and the new
counter (`const id = this.#signalId++`). -/
def DeployWorker.watchSignal (signalId : Nat) (hasSignal : Bool) :
    Option Nat × Nat :=
  if hasSignal then (some signalId, signalId + 1) else (none, signalId)

/-- The `abort` listener registered by `DeployWorker.#watchSignal`: when the
signal fires and the worker state is running or stopped, an `abort` message
carrying the allocated signal id is posted; otherwise nothing is. -/
def DeployWorker.signalFired (state : DeployWorkerState) (id : Nat) : List Msg :=
  if runningOrStopped state then [Msg.abort id] else []

/-- The signal registration inside the shim `DeployWorkerHost.#parseInit`
(src/runtime/main.ts lines 280-285; src/unnamed/part_012 lines 493-498): when
`init.signal` is set, asserts no controller is registered under the REQUEST id
and registers a fresh `AbortController` under the request id.  The controller
table is modelled by the list of registered keys; `none` models the assertion
failure. -/
def DeployWorkerHost.parseInitSignal (signalControllers : List Nat)
    (requestId : Nat) (signal : Option Nat) : Option (List Nat) :=
  match signal with
  | none => some signalControllers
  | some _ =>
      if requestId ∈ signalControllers then none
      else some (signalControllers ++ [requestId])

/-- The `abort` case of the shim `DeployWorkerHost.#handleMessage`
(src/runtime/main.ts lines 140-148): looks the message id up in the
signal-controller table; when found, calls `abort()` on that controller and
deletes the entry; when absent, does nothing.  Returns the new table and
whether some controller was aborted. -/
def DeployWorkerHost.handleAbort (signalControllers : List Nat) (id : Nat) :
    List Nat × Bool :=
  if id ∈ signalControllers then (signalControllers.erase id, true)
  else (signalControllers, false)

/-- The mutable fields of a `DeployWorker` relevant to the claims
(src/lib/deploy_worker.ts lines 66-85): lifecycle state, the request-id
counter `#fetchId` (initialized to 1), the signal-id counter `#signalId`
(initialized to 1), and the pending-fetch table. -/
structure WorkerSt where
  state : DeployWorkerState
  fetchId : Nat
  signalId : Nat
  pendingFetches : List (Nat × Deferred RespValue)
deriving DecidableEq

/-- Worker state right after construction: `loading`, both counters at 1,
empty pending-fetch table. -/
def DeployWorker.initial : WorkerSt := ⟨.loading, 1, 1, []⟩

/-- The argument of `DeployWorker.fetch`.  A string is resolved against the
configured base URL; a `URL` and a `Request` carry their own host and href (a
`Request` also its headers, body presence and signal presence); anything else
is the unsupported-type path. -/
inductive FetchInput
  | strInput (s : String)
  | urlInput (host : String) (href : String)
  | requestInput (host : String) (href : String)
      (headers : List (String × String)) (hasBody : Bool) (hasSignal : Bool)
  | unsupported
deriving DecidableEq

/-- What a call to `DeployWorker.fetch` does: a synchronous assertion failure,
a returned rejected promise (with the `TypeError` message), a synchronous
throw (with the `TypeError` message), or a returned pending promise keyed by
the allocated request id. -/
inductive FetchCallResult
  | assertionFailure
  | rejected (message : String)
  | threw (message : String)
  | pendingPromise (id : Nat)
deriving DecidableEq

/-- The host API `DeployWorker.fetch` called without a `requestInit` argument
(src/lib/deploy_worker.ts lines 326-431; src/unnamed/part_006 lines 518-623).
Checks state (assert not loading/errored; reject when closing/closed or
stopped); then allocates `id = this.#fetchId++`, creates a fresh non-strict
deferred and inserts it into the pending-fetch table; then dispatches on the
input type, throwing a `TypeError` for an unsupported input; for supported
inputs builds the serialized init — headers via `parseHeaders` with the
default `host`/`x-forwarded-for` entries, signal via `#watchSignal` — and
posts the `fetch` message.  `urlOf` models the platform
`new URL(input, this.#base)` resolution, returning (host, href).  Returns the
call result, the new worker state, and the posted messages. -/
def DeployWorker.fetch (urlOf : String → String × String) (st : WorkerSt)
    (input : FetchInput) : FetchCallResult × WorkerSt × List Msg :=
  if st.state = .loading ∨ st.state = .errored then
    (.assertionFailure, st, [])
  else if st.state = .closed ∨ st.state = .closing then
    (.rejected "The worker is closing or closed.", st, [])
  else if st.state = .stopped then
    (.rejected "The worker is currently stopped.", st, [])
  else
    let id := st.fetchId
    let st1 : WorkerSt :=
      ⟨st.state, st.fetchId + 1, st.signalId,
       mapSet st.pendingFetches id (Deferred.new RespValue false)⟩
    match input with
    | .unsupported =>
        (.threw "Argument `input` is of an unsupported type.", st1, [])
    | .strInput s =>
        let hh := urlOf s
        let headers := parseHeaders (defaultHeaders hh.1) none
        (.pendingPromise id, st1, [Msg.fetch id hh.2 headers none false])
    | .urlInput host href =>
        let headers := parseHeaders (defaultHeaders host) none
        (.pendingPromise id, st1, [Msg.fetch id href headers none false])
    | .requestInput host href reqHeaders hasBody hasSignal =>
        let headers := parseHeaders (defaultHeaders host) (some reqHeaders)
        let sig := DeployWorker.watchSignal st1.signalId hasSignal
        let st2 : WorkerSt := ⟨st1.state, st1.fetchId, sig.2, st1.pendingFetches⟩
        (.pendingPromise id, st2, [Msg.fetch id href headers sig.1 hasBody])

/-- Awaited and lifecycle actions performed by `DeployWorker.close`, in order.
`awaitPromiseAllSettled` is a `Promise.allSettled` join over the promises of
the listed pending-request ids (waits for every one to settle, resolving or
rejecting); `awaitPromiseAll` is the fail-fast `Promise.all` join, listed here
only so that the absence of a fail-fast wait is expressible. -/
inductive CloseEvent
  | setState (s : DeployWorkerState)
  | awaitPromiseAllSettled (ids : List Nat)
  | awaitPromiseAll (ids : List Nat)
  | terminateWorker
deriving DecidableEq

/-- Whether a close-trace event is a fail-fast `Promise.all` join. -/
def CloseEvent.isFailFastJoin : CloseEvent → Bool
  | .awaitPromiseAll _ => true
  | _ => false

/-- The host API `DeployWorker.close` (src/lib/deploy_worker.ts lines
303-311): sets the state to `closing`, awaits
`Promise.allSettled([...this.#pendingFetches.values()].map(v => v.promise))`,
terminates the worker, and sets the state to `closed`.  Returns the ordered
trace of actions and the final worker state (the pending table itself is not
cleared by `close`). -/
def DeployWorker.close (st : WorkerSt) : List CloseEvent × WorkerSt :=
  ([CloseEvent.setState .closing,
    CloseEvent.awaitPromiseAllSettled (st.pendingFetches.map Prod.fst),
    CloseEvent.terminateWorker,
    CloseEvent.setState .closed],
   ⟨.closed, st.fetchId, st.signalId, st.pendingFetches⟩)

/-- The snapshot returned by `DeployWorker.info` (src/types.d.ts lines
15-20). -/
structure DeployWorkerInfo where
  fetchCount : Nat
  pendingFetches : Nat
deriving DecidableEq

/-- The host API `DeployWorker.info` (src/lib/deploy_worker.ts lines 434-439;
src/unnamed/part_006 lines 625-631): resolves with
`{ fetchCount: this.#fetchId, pendingFetches: this.#pendingFetches.size }`
and mutates nothing (it is a pure read of the worker state). -/
def DeployWorker.info (st : WorkerSt) : DeployWorkerInfo :=
  ⟨st.fetchId, st.pendingFetches.length⟩

/-- Iterates `n` successful `DeployWorker.fetch("/")` calls, threading the
worker state. -/
def DeployWorker.fetchN (urlOf : String → String × String) :
    Nat → WorkerSt → WorkerSt
  | 0, st => st
  | n + 1, st => DeployWorker.fetchN urlOf n (DeployWorker.fetch urlOf st (.strInput "/")).2.1

/-- Lookup misses when no entry has the key. -/
theorem mapGet_eq_none {α : Type} (m : List (Nat × α)) (k : Nat)
    (h : ∀ p ∈ m, p.1 ≠ k) : mapGet m k = none := by
  induction m with
  | nil => rfl
  | cons p rest ih =>
      simp only [mapGet]
      rw [if_neg (h p (by simp))]
      exact ih (fun q hq => h q (by simp [hq]))

/-- Lookup over an append skips a miss on the left part. -/
theorem mapGet_append {α : Type} (m l : List (Nat × α)) (k : Nat)
    (h : mapGet m k = none) : mapGet (m ++ l) k = mapGet l k := by
  induction m with
  | nil => rfl
  | cons p rest ih =>
      simp only [mapGet, List.cons_append] at h ⊢
      by_cases hp : p.1 = k
      · rw [if_pos hp] at h; exact absurd h (by simp)
      · rw [if_neg hp] at h ⊢; exact ih h

/-- `mapSet` with a fresh key appends the new entry. -/
theorem mapSet_fresh {α : Type} (m : List (Nat × α)) (k : Nat) (v : α)
    (h : ∀ p ∈ m, p.1 ≠ k) : mapSet m k v = m ++ [(k, v)] := by
  unfold mapSet
  rw [if_neg]
  intro hk
  obtain ⟨p, hp, hpk⟩ := List.mem_map.mp hk
  exact h p hp hpk

/-- Point update followed by lookup at the same key. -/
theorem mapGet_mapReplace {α : Type} (m : List (Nat × α)) (k : Nat) (v : α)
    (hk : k ∈ m.map Prod.fst) :
    mapGet (m.map (fun p => if p.1 = k then (k, v) else p)) k = some v := by
  induction m with
  | nil => simp at hk
  | cons p rest ih =>
      by_cases hp : p.1 = k
      · simp [List.map_cons, if_pos hp, mapGet]
      · simp only [List.map_cons, if_neg hp, mapGet, if_neg hp]
        apply ih
        simp only [List.map_cons, List.mem_cons] at hk
        rcases hk with h1 | h2
        · exact absurd h1.symm hp
        · exact h2

/-- `mapSet` followed by lookup at the same key yields the new value. -/
theorem mapGet_mapSet_self {α : Type} (m : List (Nat × α)) (k : Nat) (v : α) :
    mapGet (mapSet m k v) k = some v := by
  unfold mapSet
  by_cases hk : k ∈ m.map Prod.fst
  · rw [if_pos hk]
    exact mapGet_mapReplace m k v hk
  · rw [if_neg hk]
    have h : ∀ p ∈ m, p.1 ≠ k :=
      fun p hp hpk => hk (List.mem_map.mpr ⟨p, hp, hpk⟩)
    rw [mapGet_append _ _ _ (mapGet_eq_none m k h)]
    simp [mapGet]

/-- `mapDelete` removes the key. -/
theorem mapGet_mapDelete_self {α : Type} (m : List (Nat × α)) (k : Nat) :
    mapGet (mapDelete m k) k = none := by
  apply mapGet_eq_none
  intro p hp
  unfold mapDelete at hp
  simpa using (List.mem_filter.mp hp).2

/-- A successful lookup means the key is present. -/
theorem mem_keys_of_mapGet_some {α : Type} (m : List (Nat × α)) (k : Nat)
    (v : α) (h : mapGet m k = some v) : k ∈ m.map Prod.fst := by
  induction m with
  | nil => simp [mapGet] at h
  | cons p rest ih =>
      simp only [mapGet] at h
      by_cases hp : p.1 = k
      · simp [← hp]
      · rw [if_neg hp] at h
        simp [ih h]

/-- Presence over an append with a single extra entry. -/
theorem headersHas_append_pair (h : List (String × String)) (n v m : String) :
    headersHas (h ++ [(n, v)]) m = (headersHas h m || (n == headerName m)) := by
  simp [headersHas, List.any_append]

/-- C1: the claim states that a streamed body sequence for one request id is
zero or more `bodyChunk` messages followed by exactly one terminal message
(`bodyClose` or `bodyError`, never both) with nothing after the terminal, and
that a failed source iteration terminates the stream with only a `bodyError`.
The code violates this: on an iteration error every streamer posts `bodyError`
and then also posts `bodyClose`.  This theorem evaluates the shim-side request
streamer, the host-side request streamer (worker state running throughout),
and the response path on a failing source, each emitting `bodyError` followed
by `bodyClose`; and shows the receiving handler crashes with an assertion
failure on that pair, because `bodyError` deletes the stream controller that
the subsequent `bodyClose` asserts to exist. -/
theorem C1_stream_error_two_terminal_messages :
    (DeployWorkerHost.streamBody 1 (BodySource.err [[104, 105]] ⟨"Error", "boom", "tr"⟩) =
      [Msg.bodyChunk 1 [104, 105] .request,
       Msg.bodyError 1 ⟨"Error", "boom", "tr"⟩ .request,
       Msg.bodyClose 1 .request]) ∧
    (DeployWorker.streamBody 1 (fun _ => .running)
        (BodySource.err [[104, 105]] ⟨"Error", "boom", "tr"⟩) =
      [Msg.bodyChunk 1 [104, 105] .request,
       Msg.bodyError 1 ⟨"Error", "boom", "tr"⟩ .request,
       Msg.bodyClose 1 .request]) ∧
    (DeployWorkerHost.postResponse 1
        (.ok ⟨some (BodySource.err [] ⟨"Error", "boom", "tr"⟩), [], 200, "OK"⟩) =
      [Msg.respond 1 true [] 200 "OK",
       Msg.bodyError 1 ⟨"Error", "boom", "tr"⟩ .response,
       Msg.bodyClose 1 .response]) ∧
    (DeployWorker.processBodyMessages [1]
        [Msg.bodyError 1 ⟨"Error", "boom", "tr"⟩ .response,
         Msg.bodyClose 1 .response] = none) :=
  ⟨rfl, rfl, rfl, rfl⟩

/-- C2: `fetch()` while the worker is `stopped` returns a promise rejected
with the `TypeError` message "The worker is currently stopped."; while
`closing` or `closed` it returns a promise rejected with the distinct message
"The worker is closing or closed."; while `loading` or `errored` it fails a
synchronous state assertion.  In every such case the worker state is
unchanged and no message is posted. -/
theorem C2_fetch_state_errors (urlOf : String → String × String) (st : WorkerSt)
    (input : FetchInput) :
    (st.state = .stopped →
      DeployWorker.fetch urlOf st input =
        (.rejected "The worker is currently stopped.", st, [])) ∧
    (st.state = .closing ∨ st.state = .closed →
      DeployWorker.fetch urlOf st input =
        (.rejected "The worker is closing or closed.", st, [])) ∧
    ("The worker is currently stopped." ≠ "The worker is closing or closed.") ∧
    (st.state = .loading ∨ st.state = .errored →
      DeployWorker.fetch urlOf st input = (.assertionFailure, st, [])) := by
  refine ⟨?_, ?_, by decide, ?_⟩
  · intro h
    simp [DeployWorker.fetch, h]
  · rintro (h | h) <;> simp [DeployWorker.fetch, h]
  · rintro (h | h) <;> simp [DeployWorker.fetch, h]

/-- C2 witness: the three rejection/assertion behaviors at concrete worker
states. -/
theorem C2_fetch_state_errors_witness :
    DeployWorker.fetch (fun _ => ("localhost", "https://localhost/"))
        ⟨.stopped, 1, 1, []⟩ (.strInput "/") =
      (.rejected "The worker is currently stopped.", ⟨.stopped, 1, 1, []⟩, []) ∧
    DeployWorker.fetch (fun _ => ("localhost", "https://localhost/"))
        ⟨.closing, 1, 1, []⟩ (.strInput "/") =
      (.rejected "The worker is closing or closed.", ⟨.closing, 1, 1, []⟩, []) ∧
    DeployWorker.fetch (fun _ => ("localhost", "https://localhost/"))
        ⟨.loading, 1, 1, []⟩ (.strInput "/") =
      (.assertionFailure, ⟨.loading, 1, 1, []⟩, []) :=
  ⟨(C2_fetch_state_errors _ _ _).1 rfl,
   (C2_fetch_state_errors _ _ _).2.1 (Or.inl rfl),
   (C2_fetch_state_errors _ _ _).2.2.2 (Or.inl rfl)⟩

/-- C3: when awaiting the user-script response promise fails with error `e`,
the shim posts a single `respondError` message carrying `e`'s message, name
and stack, and the host handler settles the pending fetch for that id by
rejecting its deferred with a reconstructed error equal to `e` (same name,
message and stack), removing the id from the pending-fetch table. -/
theorem C3_respondError_round_trip (e : JsError)
    (pending : List (Nat × Deferred RespValue)) (id : Nat)
    (h : mapGet pending id = some (Deferred.new RespValue false)) :
    DeployWorkerHost.postResponse id (.error e) =
      [Msg.respondError id e.message e.name e.stack] ∧
    DeployWorker.handleRespondError pending id e.message e.name e.stack =
      (.ok ⟨true, .rejected, some (Sum.inr e), false⟩, mapDelete pending id) := by
  constructor
  · rfl
  · simp [DeployWorker.handleRespondError, h, Deferred.reject, Deferred.new]

/-- C3 witness: round trip of a concrete handler error through `respondError`
and the host handler for request id 7. -/
theorem C3_respondError_round_trip_witness :
    DeployWorkerHost.postResponse 7 (.error ⟨"RangeError", "bad input", "tr"⟩) =
      [Msg.respondError 7 "bad input" "RangeError" "tr"] ∧
    DeployWorker.handleRespondError [(7, Deferred.new RespValue false)] 7
        "bad input" "RangeError" "tr" =
      (.ok ⟨true, .rejected, some (Sum.inr ⟨"RangeError", "bad input", "tr"⟩), false⟩,
       mapDelete [(7, Deferred.new RespValue false)] 7) :=
  C3_respondError_round_trip ⟨"RangeError", "bad input", "tr"⟩
    [(7, Deferred.new RespValue false)] 7 rfl

/-- C4: the first `respond` (or `respondError`) message for a pending request
id settles that id's deferred exactly once — the handler returns the deferred
settled (resolved with the reconstructed response, or rejected) and the id
deleted from the pending-fetch table — and any `respond` or `respondError`
whose id is not in the table, which includes any duplicate response for an
already-settled id, raises an assertion failure instead of being ignored. -/
theorem C4_response_settles_once (pending : List (Nat × Deferred RespValue))
    (controllers : List Nat) (id : Nat) (r : ResponseV)
    (message name stack : String) :
    (mapGet pending id = some (Deferred.new RespValue false) →
      DeployWorker.handleRespond pending controllers id r =
        (.ok ⟨true, .resolved, some (Sum.inl (r, 0)), false⟩,
         mapDelete pending id,
         if r.hasBody then controllers ++ [id] else controllers) ∧
      mapGet (mapDelete pending id) id = none ∧
      (DeployWorker.handleRespond (mapDelete pending id) controllers id r).1 =
        .assertionFailure ∧
      (DeployWorker.handleRespondError (mapDelete pending id) id
          message name stack).1 = .assertionFailure) ∧
    (mapGet pending id = none →
      (DeployWorker.handleRespond pending controllers id r).1 =
        .assertionFailure ∧
      (DeployWorker.handleRespondError pending id message name stack).1 =
        .assertionFailure) := by
  constructor
  · intro h
    refine ⟨?_, mapGet_mapDelete_self _ _, ?_, ?_⟩
    · simp [DeployWorker.handleRespond, h, Deferred.resolve, Deferred.new]
    · simp [DeployWorker.handleRespond, mapGet_mapDelete_self]
    · simp [DeployWorker.handleRespondError, mapGet_mapDelete_self]
  · intro h
    exact ⟨by simp [DeployWorker.handleRespond, h],
           by simp [DeployWorker.handleRespondError, h]⟩

/-- C4 witness: settlement and duplicate-response assertion at a concrete
single-entry pending table. -/
theorem C4_response_settles_once_witness :
    DeployWorker.handleRespond [(3, Deferred.new RespValue false)] [] 3
        ⟨true, [("content-type", "text/plain")], 200, "OK"⟩ =
      (.ok ⟨true, .resolved,
            some (Sum.inl (⟨true, [("content-type", "text/plain")], 200, "OK"⟩, 0)),
            false⟩,
       mapDelete [(3, Deferred.new RespValue false)] 3, [] ++ [3]) ∧
    (DeployWorker.handleRespond
        (mapDelete [(3, Deferred.new RespValue false)] 3) [] 3
        ⟨true, [("content-type", "text/plain")], 200, "OK"⟩).1 =
      .assertionFailure ∧
    (DeployWorker.handleRespondError [] 9 "m" "n" "s").1 = .assertionFailure :=
  ⟨((C4_response_settles_once [(3, Deferred.new RespValue false)] [] 3
      ⟨true, [("content-type", "text/plain")], 200, "OK"⟩ "m" "n" "s").1 rfl).1,
   ((C4_response_settles_once [(3, Deferred.new RespValue false)] [] 3
      ⟨true, [("content-type", "text/plain")], 200, "OK"⟩ "m" "n" "s").1 rfl).2.2.1,
   ((C4_response_settles_once [] [] 9
      ⟨true, [], 200, "OK"⟩ "m" "n" "s").2 rfl).2⟩

/-- C5: the claim states the controller allocates signal ids from its own
counter, posts an `abort` message with the signal id when the signal fires
while running/stopped, and that the shim then looks up the `AbortController`
registered for that request's signal and calls `abort()` on it.  The
allocation and posting parts hold, but the lookup is broken: the shim
registers controllers under the REQUEST id while the `abort` message carries
the SIGNAL id, and the two counters advance independently.  Scenario one
(dropped abort): request 1 carries no signal, request 2 carries the first
signal (signal id 1); the fired signal posts `abort 1`, the shim finds no
controller under key 1 and aborts nothing.  Scenario two (misdirected abort):
requests 2 and 3 carry signals 1 and 2; firing request 3's signal posts
`abort 2`, which aborts the controller registered for request 2 and leaves
request 3's controller untouched. -/
theorem C5_abort_signal_id_mismatch :
    (DeployWorker.watchSignal 1 true = (some 1, 2)) ∧
    (DeployWorkerHost.parseInitSignal [] 1 none = some []) ∧
    (DeployWorkerHost.parseInitSignal [] 2 (some 1) = some [2]) ∧
    (DeployWorker.signalFired .running 1 = [Msg.abort 1]) ∧
    (DeployWorkerHost.handleAbort [2] 1 = ([2], false)) ∧
    (DeployWorker.watchSignal 2 true = (some 2, 3)) ∧
    (DeployWorkerHost.parseInitSignal [2] 3 (some 2) = some [2, 3]) ∧
    (DeployWorker.signalFired .running 2 = [Msg.abort 2]) ∧
    (DeployWorkerHost.handleAbort [2, 3] 2 = ([3], true)) := by
  refine ⟨rfl, rfl, rfl, rfl, ?_, rfl, rfl, rfl, ?_⟩ <;> decide

/-- C6: `close()` first sets the state to `closing`, then performs one
`Promise.allSettled` join over the promises of all currently pending fetch
ids (an all-settled wait, each may resolve or reject; no fail-fast
`Promise.all` join appears in the trace), then terminates the worker and sets
the state to `closed`; and a `fetch()` call made while the state is `closing`
(or `closed`) returns a rejected promise, leaving the worker state — in
particular the pending-fetch table — unchanged and posting no message. -/
theorem C6_close_drains_all_pending (urlOf : String → String × String)
    (st st2 : WorkerSt) (input : FetchInput) :
    DeployWorker.close st =
      ([CloseEvent.setState .closing,
        CloseEvent.awaitPromiseAllSettled (st.pendingFetches.map Prod.fst),
        CloseEvent.terminateWorker,
        CloseEvent.setState .closed],
       ⟨.closed, st.fetchId, st.signalId, st.pendingFetches⟩) ∧
    ((DeployWorker.close st).1.all fun e => !e.isFailFastJoin) = true ∧
    (st2.state = .closing ∨ st2.state = .closed →
      DeployWorker.fetch urlOf st2 input =
        (.rejected "The worker is closing or closed.", st2, [])) := by
  refine ⟨rfl, rfl, ?_⟩
  rintro (h | h) <;> simp [DeployWorker.fetch, h]

/-- C6 witness: closing a worker with two pending fetches drains exactly those
two ids, and a fetch during `closing` is rejected without touching the table. -/
theorem C6_close_drains_all_pending_witness :
    DeployWorker.close
        ⟨.running, 3, 1, [(1, Deferred.new RespValue false),
                          (2, Deferred.new RespValue false)]⟩ =
      ([CloseEvent.setState .closing,
        CloseEvent.awaitPromiseAllSettled [1, 2],
        CloseEvent.terminateWorker,
        CloseEvent.setState .closed],
       ⟨.closed, 3, 1, [(1, Deferred.new RespValue false),
                        (2, Deferred.new RespValue false)]⟩) ∧
    DeployWorker.fetch (fun _ => ("localhost", "https://localhost/"))
        ⟨.closing, 3, 1, [(1, Deferred.new RespValue false),
                          (2, Deferred.new RespValue false)]⟩ (.strInput "/") =
      (.rejected "The worker is closing or closed.",
       ⟨.closing, 3, 1, [(1, Deferred.new RespValue false),
                         (2, Deferred.new RespValue false)]⟩, []) :=
  ⟨(C6_close_drains_all_pending (fun _ => ("localhost", "https://localhost/"))
      ⟨.running, 3, 1, [(1, Deferred.new RespValue false),
                        (2, Deferred.new RespValue false)]⟩
      ⟨.closing, 3, 1, [(1, Deferred.new RespValue false),
                        (2, Deferred.new RespValue false)]⟩ (.strInput "/")).1,
   (C6_close_drains_all_pending (fun _ => ("localhost", "https://localhost/"))
      ⟨.running, 3, 1, [(1, Deferred.new RespValue false),
                        (2, Deferred.new RespValue false)]⟩
      ⟨.closing, 3, 1, [(1, Deferred.new RespValue false),
                        (2, Deferred.new RespValue false)]⟩ (.strInput "/")).2.2
     (Or.inl rfl)⟩

/-- C7: for every serialized request header list, when the caller did not
supply a `host` header the result of `parseHeaders` with the default headers
contains the entry `host: <configured-host>`, and when no `x-forwarded-for`
header was supplied it contains `x-forwarded-for: 127.0.0.1`; and when the
caller did supply either header (any case spelling), the entries for that
header in the result are exactly the caller's — the defaults never overwrite
them. -/
theorem C7_default_header_injection (host : String) (hs : List (String × String)) :
    (headersHas (headersOfInit (some hs)) "host" = false →
      ("host", host) ∈ parseHeaders (defaultHeaders host) (some hs)) ∧
    (headersHas (headersOfInit (some hs)) "x-forwarded-for" = false →
      ("x-forwarded-for", "127.0.0.1") ∈ parseHeaders (defaultHeaders host) (some hs)) ∧
    (headersHas (headersOfInit (some hs)) "host" = true →
      (parseHeaders (defaultHeaders host) (some hs)).filter
          (fun p => p.1 == "host") =
        (headersOfInit (some hs)).filter (fun p => p.1 == "host")) ∧
    (headersHas (headersOfInit (some hs)) "x-forwarded-for" = true →
      (parseHeaders (defaultHeaders host) (some hs)).filter
          (fun p => p.1 == "x-forwarded-for") =
        (headersOfInit (some hs)).filter (fun p => p.1 == "x-forwarded-for")) := by
  have e1 : headerName "host" = "host" := rfl
  have e2 : headerName "x-forwarded-for" = "x-forwarded-for" := rfl
  have hb1 : (("host" : String) == "x-forwarded-for") = false := by decide
  have hb2 : (("x-forwarded-for" : String) == "host") = false := by decide
  cases hH : headersHas (headersOfInit (some hs)) "host" with
  | true =>
      cases hX : headersHas (headersOfInit (some hs)) "x-forwarded-for" with
      | true =>
          have hout : parseHeaders (defaultHeaders host) (some hs) =
              headersOfInit (some hs) := by
            simp [parseHeaders, defaultHeaders, hH, hX]
          refine ⟨fun hc => by simp at hc, fun hc => by simp at hc,
                  fun _ => by rw [hout], fun _ => by rw [hout]⟩
      | false =>
          have hout : parseHeaders (defaultHeaders host) (some hs) =
              headersOfInit (some hs) ++ [("x-forwarded-for", "127.0.0.1")] := by
            simp [parseHeaders, defaultHeaders, hH, hX, headersSet, e2]
          refine ⟨fun hc => by simp at hc, fun _ => ?_, fun _ => ?_,
                  fun hc => by simp at hc⟩
          · rw [hout]; simp
          · rw [hout, List.filter_append]
            simp [hb2]
  | false =>
      have hs1 : headersSet (headersOfInit (some hs)) "host" host =
          headersOfInit (some hs) ++ [("host", host)] := by
        simp [headersSet, hH, e1]
      have hX1 : headersHas (headersOfInit (some hs) ++ [("host", host)])
          "x-forwarded-for" =
          headersHas (headersOfInit (some hs)) "x-forwarded-for" := by
        rw [headersHas_append_pair, e2, hb1, Bool.or_false]
      cases hX : headersHas (headersOfInit (some hs)) "x-forwarded-for" with
      | true =>
          have hout : parseHeaders (defaultHeaders host) (some hs) =
              headersOfInit (some hs) ++ [("host", host)] := by
            simp [parseHeaders, defaultHeaders, hH, hs1, hX1, hX]
          refine ⟨fun _ => ?_, fun hc => by simp at hc,
                  fun hc => by simp at hc, fun _ => ?_⟩
          · rw [hout]; simp
          · rw [hout, List.filter_append]
            simp [hb1]
      | false =>
          have hs2 : headersSet (headersOfInit (some hs) ++ [("host", host)])
              "x-forwarded-for" "127.0.0.1" =
              headersOfInit (some hs) ++ [("host", host)] ++
                [("x-forwarded-for", "127.0.0.1")] := by
            simp [headersSet, hX1, hX, e2]
          have hout : parseHeaders (defaultHeaders host) (some hs) =
              headersOfInit (some hs) ++ [("host", host)] ++
                [("x-forwarded-for", "127.0.0.1")] := by
            simp [parseHeaders, defaultHeaders, hH, hs1, hX1, hX, hs2]
          refine ⟨fun _ => ?_, fun _ => ?_,
                  fun hc => by simp at hc, fun hc => by simp at hc⟩
          · rw [hout]; simp
          · rw [hout]; simp

/-- C7 witness: with no caller headers both defaults are injected; with
caller-supplied `Host` and `x-forwarded-for` headers the caller values are the
only entries for those names in the result. -/
theorem C7_default_header_injection_witness :
    ("host", "localhost") ∈ parseHeaders (defaultHeaders "localhost") (some []) ∧
    ("x-forwarded-for", "127.0.0.1") ∈
      parseHeaders (defaultHeaders "localhost") (some []) ∧
    (parseHeaders (defaultHeaders "localhost")
        (some [("Host", "example.com"), ("x-forwarded-for", "10.0.0.1")])).filter
        (fun p => p.1 == "host") =
      (headersOfInit
        (some [("Host", "example.com"), ("x-forwarded-for", "10.0.0.1")])).filter
        (fun p => p.1 == "host") ∧
    (parseHeaders (defaultHeaders "localhost")
        (some [("Host", "example.com"), ("x-forwarded-for", "10.0.0.1")])).filter
        (fun p => p.1 == "x-forwarded-for") =
      (headersOfInit
        (some [("Host", "example.com"), ("x-forwarded-for", "10.0.0.1")])).filter
        (fun p => p.1 == "x-forwarded-for") :=
  ⟨(C7_default_header_injection "localhost" []).1 (by decide),
   (C7_default_header_injection "localhost" []).2.1 (by decide),
   (C7_default_header_injection "localhost"
      [("Host", "example.com"), ("x-forwarded-for", "10.0.0.1")]).2.2.1 (by decide),
   (C7_default_header_injection "localhost"
      [("Host", "example.com"), ("x-forwarded-for", "10.0.0.1")]).2.2.2 (by decide)⟩

/-- C8: a fresh `Deferred` settles normally on first `resolve`/`reject`; for a
settled strict deferred any further `resolve()` or `reject()` throws the
`TypeError` "Already settled."; for a settled non-strict deferred any further
`resolve()` or `reject()` is a no-op — the deferred (its reported `state` and
the settled value of the associated promise) stays exactly as left by the
first settlement. -/
theorem C8_deferred_single_assignment (d : Deferred Nat) (b : Bool)
    (v v2 : Nat) (e2 : JsError)
    (hset : d.settled = true) (hval : d.promiseValue.isSome = true) :
    ((Deferred.new Nat b).resolve v =
      .ok ⟨true, .resolved, some (Sum.inl v), b⟩) ∧
    ((Deferred.new Nat b).reject e2 =
      .ok ⟨true, .rejected, some (Sum.inr e2), b⟩) ∧
    (d.strict = true →
      d.resolve v2 = .error ⟨"Already settled."⟩ ∧
      d.reject e2 = .error ⟨"Already settled."⟩) ∧
    (d.strict = false →
      d.resolve v2 = .ok d ∧ d.reject e2 = .ok d) := by
  obtain ⟨s, stt, pv, strict⟩ := d
  simp only at hset hval
  subst hset
  cases pv with
  | none => simp at hval
  | some x =>
      refine ⟨rfl, rfl, ?_, ?_⟩
      · intro hstrict
        subst hstrict
        exact ⟨rfl, rfl⟩
      · intro hstrict
        subst hstrict
        exact ⟨rfl, rfl⟩

/-- C8 witness: double settlement of a concrete settled strict deferred throws
and of a concrete settled non-strict deferred is a no-op. -/
theorem C8_deferred_single_assignment_witness :
    ((Deferred.mk true .resolved (some (Sum.inl 7)) true : Deferred Nat).resolve 8 =
      .error ⟨"Already settled."⟩) ∧
    ((Deferred.mk true .resolved (some (Sum.inl 7)) true : Deferred Nat).reject
        ⟨"Error", "no", ""⟩ = .error ⟨"Already settled."⟩) ∧
    ((Deferred.mk true .resolved (some (Sum.inl 7)) false : Deferred Nat).resolve 8 =
      .ok (Deferred.mk true .resolved (some (Sum.inl 7)) false)) ∧
    ((Deferred.mk true .resolved (some (Sum.inl 7)) false : Deferred Nat).reject
        ⟨"Error", "no", ""⟩ =
      .ok (Deferred.mk true .resolved (some (Sum.inl 7)) false)) :=
  ⟨((C8_deferred_single_assignment ⟨true, .resolved, some (Sum.inl 7), true⟩
      false 0 8 ⟨"Error", "no", ""⟩ rfl rfl).2.2.1 rfl).1,
   ((C8_deferred_single_assignment ⟨true, .resolved, some (Sum.inl 7), true⟩
      false 0 8 ⟨"Error", "no", ""⟩ rfl rfl).2.2.1 rfl).2,
   ((C8_deferred_single_assignment ⟨true, .resolved, some (Sum.inl 7), false⟩
      false 0 8 ⟨"Error", "no", ""⟩ rfl rfl).2.2.2 rfl).1,
   ((C8_deferred_single_assignment ⟨true, .resolved, some (Sum.inl 7), false⟩
      false 0 8 ⟨"Error", "no", ""⟩ rfl rfl).2.2.2 rfl).2⟩

/-- A successful `fetch` of a string input on a running worker increments the
request-id counter and appends a fresh pending entry (all existing keys are
below the counter). -/
theorem DeployWorker.fetch_strInput_running (urlOf : String → String × String)
    (s : String) (st : WorkerSt) (h : st.state = .running)
    (hk : ∀ p ∈ st.pendingFetches, p.1 < st.fetchId) :
    (DeployWorker.fetch urlOf st (.strInput s)).2.1 =
      ⟨.running, st.fetchId + 1, st.signalId,
       st.pendingFetches ++ [(st.fetchId, Deferred.new RespValue false)]⟩ := by
  have hfresh : ∀ p ∈ st.pendingFetches, p.1 ≠ st.fetchId :=
    fun p hp => Nat.ne_of_lt (hk p hp)
  simp [DeployWorker.fetch, h, mapSet_fresh _ _ _ hfresh]

/-- Counters after `n` successful fetches: the request-id counter advances by
`n` and the pending table grows by `n` entries. -/
theorem DeployWorker.fetchN_counters (urlOf : String → String × String)
    (n : Nat) : ∀ (st : WorkerSt), st.state = .running →
    (∀ p ∈ st.pendingFetches, p.1 < st.fetchId) →
    (DeployWorker.fetchN urlOf n st).fetchId = st.fetchId + n ∧
    (DeployWorker.fetchN urlOf n st).pendingFetches.length =
      st.pendingFetches.length + n := by
  induction n with
  | zero => intro st _ _; simp [DeployWorker.fetchN]
  | succ n ih =>
      intro st h hk
      have hstep := DeployWorker.fetch_strInput_running urlOf "/" st h hk
      have h1 : (DeployWorker.fetch urlOf st (.strInput "/")).2.1.state = .running := by
        rw [hstep]
      have hk1 : ∀ p ∈ (DeployWorker.fetch urlOf st (.strInput "/")).2.1.pendingFetches,
          p.1 < (DeployWorker.fetch urlOf st (.strInput "/")).2.1.fetchId := by
        rw [hstep]
        intro p hp
        rcases List.mem_append.mp hp with hp1 | hp2
        · exact Nat.lt_succ_of_lt (hk p hp1)
        · simp only [List.mem_singleton] at hp2
          subst hp2
          exact Nat.lt_succ_self _
      obtain ⟨hA, hB⟩ := ih _ h1 hk1
      constructor
      · show (DeployWorker.fetchN urlOf (n + 1) st).fetchId = st.fetchId + (n + 1)
        have hfid : (DeployWorker.fetch urlOf st (.strInput "/")).2.1.fetchId =
            st.fetchId + 1 := by
          rw [hstep]
        rw [DeployWorker.fetchN, hA, hfid]
        omega
      · show (DeployWorker.fetchN urlOf (n + 1) st).pendingFetches.length =
            st.pendingFetches.length + (n + 1)
        have hlen : (DeployWorker.fetch urlOf st (.strInput "/")).2.1.pendingFetches.length =
            st.pendingFetches.length + 1 := by
          rw [hstep]
          simp
        rw [DeployWorker.fetchN, hB, hlen]
        omega

/-- C9: the claim states `info()` reports `fetchCount` equal to the number of
fetches made so far (0 before any call, N after N calls) and `pendingFetches`
equal to the unsettled pending count, with no side effects.  The code returns
the raw `#fetchId` counter, which is initialized to 1 and holds the NEXT id:
a fresh worker reports `fetchCount = 1` before any fetch, and after `n`
fetches it reports `n + 1` (while `pendingFetches` correctly reports the `n`
unsettled entries; `info` is a pure read of the worker state). -/
theorem C9_info_fetchCount_off_by_one :
    DeployWorker.info DeployWorker.initial = ⟨1, 0⟩ ∧
    (DeployWorker.info DeployWorker.initial).fetchCount ≠ 0 ∧
    ∀ (urlOf : String → String × String) (n : Nat),
      DeployWorker.info (DeployWorker.fetchN urlOf n ⟨.running, 1, 1, []⟩) =
        ⟨n + 1, n⟩ := by
  refine ⟨rfl, by decide, ?_⟩
  intro urlOf n
  obtain ⟨hA, hB⟩ := DeployWorker.fetchN_counters urlOf n ⟨.running, 1, 1, []⟩ rfl
    (by intro p hp; simp at hp)
  simp [DeployWorker.info, hA, hB, Nat.add_comm]

/-- C10: calling `fetch()` on a running worker with an input that is neither a
string, a `URL` nor a `Request` throws the `TypeError`
"Argument `input` is of an unsupported type." synchronously, but only AFTER
incrementing the request-id counter and inserting a fresh pending deferred for
the allocated id; the error path posts no message and neither removes nor
settles the entry (it remains pending), so a later `close()` performs its
all-settled join over a set of ids that includes the orphaned id, whose
deferred no `respond`/`respondError` message will ever settle (no `fetch`
message was posted for it). -/
theorem C10_unsupported_input_leaks_pending (urlOf : String → String × String)
    (st : WorkerSt) (h : st.state = .running) :
    DeployWorker.fetch urlOf st .unsupported =
      (.threw "Argument `input` is of an unsupported type.",
       ⟨.running, st.fetchId + 1, st.signalId,
        mapSet st.pendingFetches st.fetchId (Deferred.new RespValue false)⟩,
       []) ∧
    mapGet (mapSet st.pendingFetches st.fetchId (Deferred.new RespValue false))
        st.fetchId = some (Deferred.new RespValue false) ∧
    (Deferred.new RespValue false).settled = false ∧
    (Deferred.new RespValue false).state = .pending ∧
    (DeployWorker.close
        ⟨.running, st.fetchId + 1, st.signalId,
         mapSet st.pendingFetches st.fetchId (Deferred.new RespValue false)⟩).1 =
      [CloseEvent.setState .closing,
       CloseEvent.awaitPromiseAllSettled
         ((mapSet st.pendingFetches st.fetchId
             (Deferred.new RespValue false)).map Prod.fst),
       CloseEvent.terminateWorker,
       CloseEvent.setState .closed] ∧
    st.fetchId ∈
      (mapSet st.pendingFetches st.fetchId
          (Deferred.new RespValue false)).map Prod.fst := by
  refine ⟨?_, mapGet_mapSet_self _ _ _, rfl, rfl, rfl,
          mem_keys_of_mapGet_some _ _ _ (mapGet_mapSet_self _ _ _)⟩
  simp [DeployWorker.fetch, h]

/-- C10 witness: the leak at a concrete fresh running worker — the failed call
increments the counter to 2 and leaves the pending entry for id 1, which the
subsequent close waits on. -/
theorem C10_unsupported_input_leaks_pending_witness :
    DeployWorker.fetch (fun _ => ("localhost", "https://localhost/"))
        ⟨.running, 1, 1, []⟩ .unsupported =
      (.threw "Argument `input` is of an unsupported type.",
       ⟨.running, 2, 1, mapSet [] 1 (Deferred.new RespValue false)⟩, []) ∧
    1 ∈ (mapSet ([] : List (Nat × Deferred RespValue)) 1
          (Deferred.new RespValue false)).map Prod.fst :=
  ⟨(C10_unsupported_input_leaks_pending
      (fun _ => ("localhost", "https://localhost/")) ⟨.running, 1, 1, []⟩ rfl).1,
   (C10_unsupported_input_leaks_pending
      (fun _ => ("localhost", "https://localhost/")) ⟨.running, 1, 1, []⟩ rfl).2.2.2.2.2⟩
